import Mathlib

/-
Verification of the FluxPay x402 payment gateway core against its design
document. The JavaScript source is shallowly embedded: JS numbers that can
be NaN become `JsNum` (exact rationals plus a NaN marker), thrown exceptions
become `Except String`, the module-level mutable sets and maps become
explicit state records threaded through the functions, and the external
collaborators (ethers signature recovery, the Nexus escrow adapter, the
backing provider) become parameter records of functions.

Embedded modules:
  - backend/receiptVerifier.js : validateReceipt, validateSignature,
    validateNonce, cleanupOldNonces, verifyAgainstOpenRouterUsage
  - backend/openRouterProxy.js : OpenRouterProxy.verifyUsage, getModelPricing
  - backend/gateway.js         : the paid-request phase of the /api/* route,
    handleSettlement, verifyUsageAmount, checkTimeouts
  - backend/nexusAdapter.js    : NexusAdapter.settleIntent
-/

namespace FluxPay

/-- A JavaScript numeric value as it flows through the gateway: an exact
rational, or `nan` standing for a value whose numeric coercion is NaN
(for example a non-numeric string; such a value is truthy but every
comparison on it is false). The floating-point NaN literal itself is not
modelled. -/
inductive JsNum where
  | num (q : ℚ)
  | nan
deriving DecidableEq, Repr

/-- Exact rational product, computed directly on numerator and denominator
(so that concrete values reduce in the kernel). -/
def qmul (a b : ℚ) : ℚ := mkRat (a.num * b.num) (a.den * b.den)

/-- Exact rational sum. -/
def qadd (a b : ℚ) : ℚ := mkRat (a.num * (b.den : ℤ) + b.num * (a.den : ℤ)) (a.den * b.den)

/-- Exact rational difference. -/
def qsub (a b : ℚ) : ℚ := mkRat (a.num * (b.den : ℤ) - b.num * (a.den : ℤ)) (a.den * b.den)

/-- Exact rational absolute value. -/
def qabs (a : ℚ) : ℚ := mkRat (a.num.natAbs : ℤ) a.den

/-- Exact rational quotient (0 when dividing by 0, which no embedded code
path reaches: the source only divides by constants). -/
def qdiv (a b : ℚ) : ℚ :=
  if 0 ≤ b.num then mkRat (a.num * (b.den : ℤ)) (a.den * b.num.toNat)
  else mkRat (-(a.num * (b.den : ℤ))) (a.den * (-b.num).toNat)

/-- JS `>`: false whenever either side is NaN. -/
def jsGt : JsNum → JsNum → Bool
  | .num a, .num b => decide (a > b)
  | _, _ => false

/-- JS `<`: false whenever either side is NaN. -/
def jsLt : JsNum → JsNum → Bool
  | .num a, .num b => decide (a < b)
  | _, _ => false

/-- JS `<=`: false whenever either side is NaN. -/
def jsLe : JsNum → JsNum → Bool
  | .num a, .num b => decide (a ≤ b)
  | _, _ => false

/-- JS subtraction: NaN-propagating. -/
def jsSub : JsNum → JsNum → JsNum
  | .num a, .num b => .num (qsub a b)
  | _, _ => .nan

/-- JS `Math.abs`: NaN-propagating. -/
def jsAbs : JsNum → JsNum
  | .num a => .num (qabs a)
  | .nan => .nan

/-- JS truthiness of a numeric-ish value: 0 is falsy; a `nan` here models a
non-numeric string, which is truthy. -/
def truthyJs : JsNum → Bool
  | .num q => decide (q ≠ 0)
  | .nan => true

/-- Reading a possibly absent object property: an absent property reads as
`undefined`, whose numeric coercion is NaN. -/
def jsField : Option JsNum → JsNum
  | none => .nan
  | some v => v

/-- Truthiness of a possibly absent numeric property (`undefined` is falsy). -/
def truthyField : Option JsNum → Bool
  | none => false
  | some v => truthyJs v

/-- Truthiness of a possibly absent string property (`undefined` and the
empty string are falsy). -/
def truthyStr : Option String → Bool
  | none => false
  | some s => decide (s ≠ "")

/-- Truncation toward zero, the behaviour of JS `parseInt` on a number:
the floor for nonnegative values, the ceiling for negative ones. -/
def ratTrunc (q : ℚ) : ℚ :=
  mkRat (if 0 ≤ q.num then Int.fdiv q.num (q.den : ℤ) else -(Int.fdiv (-q.num) (q.den : ℤ))) 1

/-- JS `parseInt` applied to a value: a number truncates toward zero, a
non-numeric value gives NaN. -/
def parseIntJ : JsNum → JsNum
  | .num q => .num (ratTrunc q)
  | .nan => .nan

/-- JS `Math.round`, which is the floor of the argument plus one half:
with q = n/d (d positive), that floor is `(2n + d) fdiv 2d`. -/
def jsRound (q : ℚ) : ℤ := Int.fdiv (2 * q.num + (q.den : ℤ)) (2 * (q.den : ℤ))

/-- JS `Math.ceil`: the negated floor of the negation. -/
def jsCeil (q : ℚ) : ℤ := -(Int.fdiv (-q.num) (q.den : ℤ))

/-- Decidable equality of `Except` outcomes, to evaluate the embedding at
concrete inputs. -/
instance {ε α : Type} [DecidableEq ε] [DecidableEq α] : DecidableEq (Except ε α) :=
  fun a b =>
    match a, b with
    | .ok x, .ok y =>
      if h : x = y then .isTrue (by rw [h])
      else .isFalse (fun hc => by cases hc; exact h rfl)
    | .error e, .error f =>
      if h : e = f then .isTrue (by rw [h])
      else .isFalse (fun hc => by cases hc; exact h rfl)
    | .ok _, .error _ => .isFalse (fun hc => by cases hc)
    | .error _, .ok _ => .isFalse (fun hc => by cases hc)

/-- JS `String.prototype.toLowerCase`, computed on the character list. -/
def jsToLower (s : String) : String := String.mk (s.data.map Char.toLower)

/-- JS `String.prototype.startsWith`, computed on the character lists. -/
def jsStartsWith (s p : String) : Bool := p.data.isPrefixOf s.data

/-- Lookup in an association list, modelling `Map.get`. -/
def mapGet {α : Type} (m : List (String × α)) (k : String) : Option α :=
  (m.find? (fun p => decide (p.1 = k))).map (fun p => p.2)

/-- `Map.get` applied to a possibly undefined key: `get(undefined)` is
`undefined`. -/
def mapGetOpt {α : Type} (m : List (String × α)) (k : Option String) : Option α :=
  match k with
  | none => none
  | some s => mapGet m s

/- ## receiptVerifier.js : nonce ledger -/

/-- Nonce retention window: `maxNonceAge = 24 * 60 * 60 * 1000` milliseconds
(receiptVerifier.js line 11). -/
def maxNonceAge : ℤ := 24 * 60 * 60 * 1000

/-- The module-level nonce bookkeeping of receiptVerifier.js: the
`processedNonces` set and the `nonceStore` map from nonce to the
millisecond timestamp it was first seen. -/
structure NonceState where
  processedNonces : List String
  nonceStore : List (String × ℤ)
deriving DecidableEq, Repr

/-- receiptVerifier.js lines 171-181, `cleanupOldNonces`: delete every
`nonceStore` entry older than the retention window, removing the nonce
from `processedNonces` as well. -/
def cleanupOldNonces (st : NonceState) (nowMs : ℤ) : NonceState :=
  let cutoff := nowMs - maxNonceAge
  { processedNonces := st.processedNonces.filter
      (fun n => !(st.nonceStore.any (fun p => decide (p.1 = n) && decide (p.2 < cutoff)))),
    nonceStore := st.nonceStore.filter (fun p => !(decide (p.2 < cutoff))) }

/-- receiptVerifier.js lines 151-166, `validateNonce`: reject a nonce that
was already processed; otherwise record it (set plus timestamped map
entry, overwriting any stale map entry for the same key as `Map.set`
does), run the cleanup, and accept. -/
def validateNonce (st : NonceState) (nowMs : ℤ) (nonce : String) : Bool × NonceState :=
  if nonce ∈ st.processedNonces then (false, st)
  else
    let st1 : NonceState :=
      { processedNonces := nonce :: st.processedNonces,
        nonceStore := (nonce, nowMs) :: st.nonceStore.filter (fun p => !(decide (p.1 = nonce))) }
    (true, cleanupOldNonces st1 nowMs)

/- ## receiptVerifier.js : receipts and signatures -/

/-- A provider usage receipt as a JS object: every property may be absent.
String-valued properties are modelled as `Option String`, numeric-ish
properties as `Option JsNum`. -/
structure ReceiptObj where
  intentId : Option String
  usedAmount : Option JsNum
  tokensUsed : Option JsNum
  endpointHash : Option String
  nonce : Option String
  timestamp : Option JsNum
  provider : Option String
  payoutChain : Option String
  signature : Option String
deriving DecidableEq, Repr

/-- The value passed as the `receipt` argument: `null` (covering null and
non-object values, on which the `in` operator throws) or an object. -/
inductive RVal where
  | null
  | obj (rc : ReceiptObj)
deriving DecidableEq, Repr

/-- receiptVerifier.js lines 112-124: the canonical signing payload, the
receipt fields excluding the signature, serialised deterministically with
sorted keys. The structure itself stands for the serialised message. -/
structure SigMsg where
  intentId : Option String
  usedAmount : Option JsNum
  tokensUsed : Option JsNum
  endpointHash : Option String
  nonce : Option String
  timestamp : Option JsNum
  provider : Option String
  payoutChain : Option String
deriving DecidableEq, Repr

/-- Build the canonical signing payload from a receipt. -/
def sigMsg (r : ReceiptObj) : SigMsg :=
  { intentId := r.intentId, usedAmount := r.usedAmount, tokensUsed := r.tokensUsed,
    endpointHash := r.endpointHash, nonce := r.nonce, timestamp := r.timestamp,
    provider := r.provider, payoutChain := r.payoutChain }

/-- The cryptographic externals of receiptVerifier.js. `verifyMessage`
models `ethers.verifyMessage` (the recovered signer address, or `none`
when ethers throws), `getAddress` models `ethers.getAddress` (`none` when
the string is not a valid address), and `providerKeys` is the
provider-key registry (the source ships placeholder entries
`example_provider_1 / example_provider_2` with value `0x...`; in
production it is fetched from the ProviderRegistry contract, so it is a
parameter here). -/
structure CryptoEnv where
  verifyMessage : SigMsg → String → Option String
  getAddress : String → Option String
  providerKeys : List (String × String)

/-- receiptVerifier.js lines 108-144, `validateSignature`. A falsy
`providerPublicKey` argument falls back to the `providerKeys` registry; a
falsy lookup result throws `Unknown provider` (uncaught here, so the
result is `Except`). The inner try block recovers the signer address from
the canonical message and compares it, lowercased, with the parsed
`receipt.provider` address; any ethers exception (absent signature,
invalid address) yields `false`. The looked-up public key itself is never
used in the comparison, exactly as in the source. -/
def validateSignature (env : CryptoEnv) (receipt : ReceiptObj)
    (providerPublicKey : Option String) : Except String Bool :=
  let message := sigMsg receipt
  let key : Option String :=
    if truthyStr providerPublicKey then providerPublicKey
    else mapGetOpt env.providerKeys receipt.provider
  if truthyStr key = false then
    .error ("Unknown provider: " ++ receipt.provider.getD "undefined")
  else
    match receipt.signature with
    | none => .ok false
    | some s =>
      match env.verifyMessage message s, receipt.provider.bind env.getAddress with
      | some recovered, some addr => .ok (jsToLower recovered == jsToLower addr)
      | _, _ => .ok false

/-- receiptVerifier.js lines 38-53: the required-field loop, returning the
first missing field name if any. -/
def firstMissingField (rc : ReceiptObj) : Option String :=
  if rc.intentId.isNone then some "intentId"
  else if rc.usedAmount.isNone then some "usedAmount"
  else if rc.tokensUsed.isNone then some "tokensUsed"
  else if rc.endpointHash.isNone then some "endpointHash"
  else if rc.nonce.isNone then some "nonce"
  else if rc.timestamp.isNone then some "timestamp"
  else if rc.provider.isNone then some "provider"
  else if rc.payoutChain.isNone then some "payoutChain"
  else none

/-- The body of receiptVerifier.js lines 35-95 (`validateReceipt` inside its
try block): field presence, signature presence and validity, nonce
freshness (which records the nonce as a side effect), timestamp window,
amount and token-count checks, each failure raising the source error
message. Returns the outcome together with the nonce state at the point
the function returned or threw. `nowMs` is `Date.now()`; the receipt
timestamp checks use `Math.floor(Date.now() / 1000)`. -/
def validateReceiptE (env : CryptoEnv) (st : NonceState) (nowMs : ℤ)
    (providerKey : Option String) : RVal → Except String Unit × NonceState
  | .null => (.error "TypeError: cannot use in operator on a non-object", st)
  | .obj rc =>
    match firstMissingField rc with
    | some f => (.error ("Missing required field: " ++ f), st)
    | none =>
      if truthyStr rc.signature = false then (.error "Missing signature", st)
      else
        match validateSignature env rc providerKey with
        | .error e => (.error e, st)
        | .ok false => (.error "Invalid signature", st)
        | .ok true =>
          match rc.nonce with
          | none => (.error "Missing required field: nonce", st)
          | some nn =>
            match validateNonce st nowMs nn with
            | (false, st1) => (.error "Invalid or replayed nonce", st1)
            | (true, st1) =>
              let now : ℤ := Int.fdiv nowMs 1000
              if jsGt (jsField rc.timestamp) (.num ((now + 300 : ℤ) : ℚ)) then
                (.error "Receipt timestamp too far in future", st1)
              else if jsLt (jsField rc.timestamp) (.num ((now - 3600 : ℤ) : ℚ)) then
                (.error "Receipt timestamp too old", st1)
              else
                match parseIntJ (jsField rc.usedAmount) with
                | .nan => (.error "Invalid used amount", st1)
                | .num usedAmount =>
                  if usedAmount ≤ 0 then (.error "Invalid used amount", st1)
                  else
                    if truthyField rc.tokensUsed then
                      match parseIntJ (jsField rc.tokensUsed) with
                      | .nan => (.error "Invalid token count", st1)
                      | .num tokensUsed =>
                        if tokensUsed < 0 then (.error "Invalid token count", st1)
                        else (.ok (), st1)
                    else (.ok (), st1)

/-- receiptVerifier.js lines 35-100, `validateReceipt`: the whole body runs
inside a try/catch, so every raised error is caught and becomes `false`.
Returns the boolean together with the resulting nonce state. -/
def validateReceipt (env : CryptoEnv) (st : NonceState) (nowMs : ℤ)
    (providerKey : Option String) (r : RVal) : Bool × NonceState :=
  match validateReceiptE env st nowMs providerKey r with
  | (.ok _, st1) => (true, st1)
  | (.error _, st1) => (false, st1)

/-- The flat conjunction of every check `validateReceipt` performs, written
without the control-flow and state threading: all required fields
present, truthy signature that verifies, nonce not yet processed,
timestamp inside the window, parsed amount positive, and a truthy token
count parsing to a nonnegative number. Used to characterise exactly when
`validateReceipt` returns `true`. -/
def receiptChecks (env : CryptoEnv) (st : NonceState) (nowMs : ℤ)
    (providerKey : Option String) : RVal → Bool
  | .null => false
  | .obj rc =>
    (firstMissingField rc).isNone
    && truthyStr rc.signature
    && (match validateSignature env rc providerKey with
        | .ok true => true
        | _ => false)
    && !(decide ((rc.nonce.getD "undefined") ∈ st.processedNonces))
    && !(jsGt (jsField rc.timestamp) (.num ((Int.fdiv nowMs 1000 + 300 : ℤ) : ℚ)))
    && !(jsLt (jsField rc.timestamp) (.num ((Int.fdiv nowMs 1000 - 3600 : ℤ) : ℚ)))
    && (match parseIntJ (jsField rc.usedAmount) with
        | .num q => decide (0 < q)
        | .nan => false)
    && (!(truthyField rc.tokensUsed)
        || (match parseIntJ (jsField rc.tokensUsed) with
            | .num t => decide (0 ≤ t)
            | .nan => false))

/- ## receiptVerifier.js / openRouterProxy.js : usage cross-verification -/

/-- OpenRouter usage metadata (`usage.prompt_tokens`, `usage.completion_tokens`,
each possibly absent). -/
structure Usage where
  prompt_tokens : Option ℤ
  completion_tokens : Option ℤ
deriving DecidableEq, Repr

/-- JS `x || 0` on a possibly absent token count. -/
def orZero : Option ℤ → ℤ
  | none => 0
  | some n => n

/-- receiptVerifier.js lines 253-266, `verifyAgainstOpenRouterUsage`: skip
(accept) when the receipt has a falsy `tokensUsed` or there is no usage
object; otherwise compare the provider token count against the oracle
total within a `Math.ceil(total * 0.05)` tolerance. -/
def verifyAgainstOpenRouterUsage (receipt : ReceiptObj) (openRouterUsage : Option Usage) : Bool :=
  match openRouterUsage, truthyField receipt.tokensUsed with
  | none, _ => true
  | some _, false => true
  | some u, true =>
    let providerTokens := parseIntJ (jsField receipt.tokensUsed)
    let openRouterTokens : ℤ := orZero u.prompt_tokens + orZero u.completion_tokens
    let tolerance : ℤ := jsCeil (qmul (openRouterTokens : ℚ) (mkRat 1 20))
    let difference := jsAbs (jsSub providerTokens (.num (openRouterTokens : ℚ)))
    jsLe difference (.num (tolerance : ℚ))

/-- The AI API result consumed by `verifyUsage` (`apiResult.usage` and
`apiResult.model`). -/
structure ApiResult where
  usage : Option Usage
  model : Option String
deriving DecidableEq, Repr

/-- Per-model pricing in dollars per million tokens. -/
structure ModelPricing where
  prompt_per_token : ℚ
  completion_per_token : ℚ
deriving DecidableEq, Repr

/-- openRouterProxy.js lines 462-504, `getModelPricing`: the cached pricing
map (decimal constants written as exact rationals). -/
def getModelPricing : Option String → Option ModelPricing
  | some "openai/gpt-4o" => some ⟨mkRat 5 2, 10⟩
  | some "openai/gpt-4o-mini" => some ⟨mkRat 3 20, mkRat 3 5⟩
  | some "openai/gpt-3.5-turbo" => some ⟨mkRat 1 2, mkRat 3 2⟩
  | some "anthropic/claude-3.5-sonnet" => some ⟨3, 15⟩
  | some "anthropic/claude-3-haiku" => some ⟨mkRat 1 4, mkRat 5 4⟩
  | some "meta-llama/llama-3.1-405b-instruct" => some ⟨0, 0⟩
  | some "mistralai/mistral-7b-instruct" => some ⟨0, 0⟩
  | _ => none

/-- openRouterProxy.js lines 417-455, `OpenRouterProxy.verifyUsage`: compute
the independent cost of the oracle-reported token usage at the model
price (in USDC smallest units, `Math.round`ed), take a one percent
tolerance of it, and reject the receipt when the claimed `usedAmount`
differs from the computed cost by more than the tolerance; on success
return the computed cost. The source float arithmetic is carried out
exactly over the rationals. -/
def verifyUsage (apiResult : ApiResult) (receipt : ReceiptObj) : Except String ℤ :=
  match apiResult.usage with
  | none => .error "No usage data in AI response"
  | some usage =>
    let promptTokens : ℤ := orZero usage.prompt_tokens
    let completionTokens : ℤ := orZero usage.completion_tokens
    match getModelPricing apiResult.model with
    | none => .error ("Unknown model pricing: " ++ apiResult.model.getD "undefined")
    | some pricing =>
      let promptCost : ℚ := qdiv (qmul (promptTokens : ℚ) pricing.prompt_per_token) 1000000
      let completionCost : ℚ := qdiv (qmul (completionTokens : ℚ) pricing.completion_per_token) 1000000
      let totalCostUsdc : ℚ := qadd promptCost completionCost
      let totalCostWei : ℤ := jsRound (qmul totalCostUsdc 1000000)
      let tolerance : ℤ := jsRound (qmul (totalCostWei : ℚ) (mkRat 1 100))
      if jsGt (jsAbs (jsSub (jsField receipt.usedAmount) (.num (totalCostWei : ℚ))))
          (.num (tolerance : ℚ)) then
        .error "Provider usage claim does not match verified usage"
      else
        .ok totalCostWei

/- ## gateway.js : intent registry and settlement flow -/

/-- Intent lifecycle status strings used across gateway.js and
nexusAdapter.js. -/
inductive Status where
  | PENDING
  | LOCKED
  | PROCESSING
  | SETTLED
  | REFUNDED
  | EXPIRED
deriving DecidableEq, Repr

/-- An entry of the gateway `activeIntents` map (gateway.js lines 73-81):
the status, the expiry in seconds, the locked amount and the endpoint the
deferred request targets. The stored payload, headers and creation
timestamp are not consulted by any embedded operation and are omitted. -/
structure IntentRecord where
  status : Status
  expiry : ℚ
  lockedAmount : ℚ
  endpoint : String
deriving DecidableEq, Repr

/-- The gateway module state: the `activeIntents` map and the
`processedReceipts` nonce set (gateway.js lines 30-31). -/
structure GatewayState where
  activeIntents : List (String × IntentRecord)
  processedReceipts : List String
deriving DecidableEq, Repr

/-- `Map.set` on the intent registry: overwrite in place when the key
exists, append otherwise (JS maps preserve insertion order). -/
def mapSet (m : List (String × IntentRecord)) (k : String) (v : IntentRecord) :
    List (String × IntentRecord) :=
  if (m.find? (fun p => decide (p.1 = k))).isSome then
    m.map (fun p => if p.1 = k then (k, v) else p)
  else m ++ [(k, v)]

/-- `Map.delete` on the intent registry. -/
def mapDelete (m : List (String × IntentRecord)) (k : String) :
    List (String × IntentRecord) :=
  m.filter (fun p => !(decide (p.1 = k)))

/-- The result of `nexusAdapter.getIntentStatus`: the escrow-side status and
locked amount (the expiry and payer it also reports are unused by the
embedded flows). -/
structure NexusStatus where
  status : Status
  amount : ℚ
deriving DecidableEq, Repr

/-- The provider response body consumed by `handleSettlement`
(gateway.js line 165): the signed receipt and the API result carrying the
metering-oracle usage. -/
structure ProviderResult where
  receipt : ReceiptObj
  apiResult : ApiResult
deriving DecidableEq, Repr

/-- The external collaborators of gateway.js, as injected outcomes:
`nexusStatus` is `nexusAdapter.getIntentStatus` (which can throw),
`settleTx` is the escrow-side settlement recording inside
`nexusAdapter.settleIntent` (a transaction hash, or a thrown error), and
`providerResult` is the outcome of `processWithProvider` for the intent
(the provider call can time out or fail). -/
structure GatewayEnv where
  crypto : CryptoEnv
  nexusStatus : String → Except String NexusStatus
  settleTx : String → Except String String
  providerResult : String → Except String ProviderResult

/-- An outbound escrow call made by the gateway, for tracking which external
calls a request handler performed. -/
inductive NexusCall where
  | settle (intentId : String) (amount : JsNum)
  | refund (intentId : String)
deriving DecidableEq, Repr

/-- nexusAdapter.js lines 191-229, `NexusAdapter.settleIntent`: query the
intent status, throw when the escrow-side locked amount is below the
settlement amount (a NaN amount passes this check, as in JS), then record
the settlement; every error is rethrown wrapped in
`Failed to settle intent`. The recipient, target chain and target token
parameters do not influence the embedded control flow and are omitted. -/
def settleIntent (env : GatewayEnv) (intentId : String) (amount : JsNum) :
    Except String String :=
  match env.nexusStatus intentId with
  | .error e => .error ("Failed to settle intent: " ++ e)
  | .ok status =>
    if jsLt (.num status.amount) amount then
      .error "Failed to settle intent: Insufficient locked amount for settlement"
    else
      match env.settleTx intentId with
      | .error e => .error ("Failed to settle intent: " ++ e)
      | .ok tx => .ok tx

/-- gateway.js lines 208-224, `verifyUsageAmount`: for intents whose
endpoint starts with `/ai/` the verified amount is the reconciled cost
from `OpenRouterProxy.verifyUsage`; for every other endpoint the
provider claim `receipt.usedAmount` is trusted as-is. Afterwards the
verified amount is rejected if it exceeds the intent's locked amount. -/
def verifyUsageAmount (receipt : ReceiptObj) (apiResult : ApiResult)
    (intentRecord : IntentRecord) : Except String JsNum :=
  let va : Except String JsNum :=
    if jsStartsWith intentRecord.endpoint "/ai/" then
      (verifyUsage apiResult receipt).map (fun w => .num (w : ℚ))
    else
      .ok (jsField receipt.usedAmount)
  match va with
  | .error e => .error e
  | .ok verifiedAmount =>
    if jsGt verifiedAmount (.num intentRecord.lockedAmount) then
      .error "Claimed usage exceeds locked amount"
    else
      .ok verifiedAmount

/-- The settlement record returned on success (gateway.js lines 194-202).
The source formats the two amounts for display with `formatUsdc`; the raw
numeric values are recorded here. -/
structure SettlementRecord where
  intentId : String
  settledAmount : JsNum
  settledTx : String
  refundAmount : JsNum
deriving DecidableEq, Repr

/-- gateway.js lines 164-203, `handleSettlement`: validate the receipt
signature (any `validateSignature` throw propagates), reject a nonce
already in `processedReceipts` and otherwise record it, verify the usage
amount, settle via the Nexus adapter, and return the settlement record
with `refundAmount = lockedAmount - verifiedAmount`. Returns the
outcome, the updated `processedReceipts` set, and the escrow calls
attempted. The audit-contract recording is a logging stub in the source
and is omitted. -/
def handleSettlement (env : GatewayEnv) (processedReceipts : List String)
    (intentId : String) (result : ProviderResult) (intentRecord : IntentRecord) :
    Except String SettlementRecord × List String × List NexusCall :=
  match validateSignature env.crypto result.receipt none with
  | .error e => (.error e, processedReceipts, [])
  | .ok isValid =>
    if isValid = false then
      (.error "Invalid receipt signature", processedReceipts, [])
    else
      let nonceKey := result.receipt.nonce.getD "undefined"
      if nonceKey ∈ processedReceipts then
        (.error "Duplicate receipt nonce", processedReceipts, [])
      else
        let pr := nonceKey :: processedReceipts
        match verifyUsageAmount result.receipt result.apiResult intentRecord with
        | .error e => (.error e, pr, [])
        | .ok verifiedAmount =>
          match settleIntent env intentId verifiedAmount with
          | .error e => (.error e, pr, [.settle intentId verifiedAmount])
          | .ok tx =>
            (.ok { intentId := intentId,
                   settledAmount := verifiedAmount,
                   settledTx := tx,
                   refundAmount := jsSub (.num intentRecord.lockedAmount) verifiedAmount },
             pr, [.settle intentId verifiedAmount])

/-- The HTTP response the paid-request phase produces. -/
inductive Response where
  | ok (settlement : SettlementRecord)
  | badRequest (msg : String)
  | paymentRequired (msg : String)
  | serverError (msg : String)
deriving DecidableEq, Repr

/-- gateway.js lines 86-141, the paid-request phase of the `/api/*` route
handler: look up the intent (400 when unknown), reject an expired intent
(400), require the escrow status to be LOCKED with a sufficient amount
(402), mark the record PROCESSING, call the provider, run
`handleSettlement`, and on success delete the intent and return the
settlement. Any thrown error reaches the catch block, which attempts
`nexusAdapter.refundIntent(evidence.intentId)` (the attempt is recorded
in the call list; its own failure is swallowed) and answers 500
`Service error`. `nowMs` is `Date.now()`; the expiry comparison uses the
unfloored `Date.now() / 1000`. -/
def gatewayPaidRequest (env : GatewayEnv) (st : GatewayState) (nowMs : ℤ)
    (intentId : String) : Response × GatewayState × List NexusCall :=
  match mapGet st.activeIntents intentId with
  | none => (.badRequest "Invalid intent ID", st, [])
  | some intentRecord =>
    if qdiv (nowMs : ℚ) 1000 > intentRecord.expiry then
      (.badRequest "Intent expired", st, [])
    else
      match env.nexusStatus intentId with
      | .error _ => (.serverError "Service error", st, [.refund intentId])
      | .ok intentStatus =>
        if intentStatus.status ≠ Status.LOCKED then
          (.paymentRequired "Funds not locked", st, [])
        else if intentStatus.amount < intentRecord.lockedAmount then
          (.paymentRequired "Insufficient locked amount", st, [])
        else
          let rec1 : IntentRecord := { intentRecord with status := Status.PROCESSING }
          let st1 : GatewayState := { st with activeIntents := mapSet st.activeIntents intentId rec1 }
          match env.providerResult intentId with
          | .error _ => (.serverError "Service error", st1, [.refund intentId])
          | .ok result =>
            match handleSettlement env st1.processedReceipts intentId result rec1 with
            | (.error _, pr, calls) =>
              (.serverError "Service error",
               { st1 with processedReceipts := pr }, calls ++ [.refund intentId])
            | (.ok settlement, pr, calls) =>
              (.ok settlement,
               { activeIntents := mapDelete st1.activeIntents intentId,
                 processedReceipts := pr }, calls)

/-- gateway.js lines 265-277, `checkTimeouts`: iterate over the registry;
for each entry whose status is PROCESSING and whose expiry has passed,
await the escrow refund (`ro`, which can throw) and delete the entry.
When the refund throws, the loop aborts with the entry still present;
when it succeeds, the source then calls `recordRefundToAuditContract`,
which is not defined anywhere in gateway.js, so the ReferenceError aborts
the sweep after the deletion. Returns the remaining registry entries and
the intent ids for which a refund was attempted. -/
def checkTimeouts (ro : String → Except String String) (nowMs : ℤ) :
    List (String × IntentRecord) → List (String × IntentRecord) × List String
  | [] => ([], [])
  | (id, it) :: rest =>
    if it.status = Status.PROCESSING ∧ qdiv (nowMs : ℚ) 1000 > it.expiry then
      match ro id with
      | .error _ => ((id, it) :: rest, [id])
      | .ok _ => (rest, [id])
    else
      let done := checkTimeouts ro nowMs rest
      ((id, it) :: done.1, done.2)

/- ## Concrete fixtures for witnesses and counterexamples -/

/-- A crypto environment in which `0xprov` is a registered provider and the
recovered signer of every message is `0xprov`: a receipt from `0xprov`
carrying any signature verifies, as would happen with a real key pair. -/
def cryptoAccept : CryptoEnv :=
  { verifyMessage := fun _ _ => some "0xprov",
    getAddress := fun s => some s,
    providerKeys := [("0xprov", "0xpubkey")] }

/-- A well-formed demo receipt: `usedAmount` 7500 over 150 tokens from
provider `0xprov` with nonce `n1`. -/
def receiptDemo : ReceiptObj :=
  { intentId := some "I1", usedAmount := some (.num 7500), tokensUsed := some (.num 150),
    endpointHash := some "h", nonce := some "n1", timestamp := some (.num 1000),
    provider := some "0xprov", payoutChain := some "ethereum", signature := some "0xsig" }

/-- Demo API result: the oracle reports 45 prompt and 150 completion tokens
from gpt-4o-mini. -/
def apiResultDemo : ApiResult :=
  { usage := some { prompt_tokens := some 45, completion_tokens := some 150 },
    model := some "openai/gpt-4o-mini" }

/-- Demo intent record bound to endpoint `/api/ai/chat` with 100000 locked
units, expiring at second 10000000. -/
def intentDemo : IntentRecord :=
  { status := Status.PENDING, expiry := 10000000, lockedAmount := 100000,
    endpoint := "/api/ai/chat" }

/-- Gateway environment for the demo flow: escrow reports LOCKED with
100000 units, settlement recording succeeds, and the provider returns
`receiptDemo` with `apiResultDemo`. -/
def envDemo : GatewayEnv :=
  { crypto := cryptoAccept,
    nexusStatus := fun _ => .ok { status := Status.LOCKED, amount := 100000 },
    settleTx := fun _ => .ok "0xtx",
    providerResult := fun _ => .ok { receipt := receiptDemo, apiResult := apiResultDemo } }

/-- Gateway state holding the single demo intent `I1` and no processed
nonces. -/
def stateDemo : GatewayState :=
  { activeIntents := [("I1", intentDemo)], processedReceipts := [] }

/-- A receipt claiming a negative `usedAmount` of -5 (nonce `n2`). -/
def receiptNeg : ReceiptObj :=
  { receiptDemo with usedAmount := some (.num (-5)), nonce := some "n2" }

/-- Gateway environment whose provider returns the negative-amount
receipt. -/
def envNeg : GatewayEnv :=
  { envDemo with
    providerResult := fun _ => .ok { receipt := receiptNeg, apiResult := apiResultDemo } }

/-- Gateway state for the replayed-nonce scenario: nonce `n1` has already
been consumed. -/
def stateReplay : GatewayState :=
  { activeIntents := [("I1", intentDemo)], processedReceipts := ["n1"] }

/-- A receipt whose fields are all present and whose signature verifies in
`cryptoAccept`, but whose `issuedAt` timestamp lies 301 seconds in the
future of second 10000 (so it must be rejected as too far in the
future). -/
def receiptFuture : ReceiptObj :=
  { receiptDemo with timestamp := some (.num 10301) }

/-- The empty nonce ledger. -/
def nonceStateEmpty : NonceState :=
  { processedNonces := [], nonceStore := [] }

/-- The nonce ledger after `n1` was recorded at millisecond 10000000. -/
def nonceStateN1 : NonceState :=
  { processedNonces := ["n1"], nonceStore := [("n1", 10000000)] }

/-- An expired intent that is still PENDING (expiry second 10, endpoint
outside `/ai/`). -/
def intentPendingExpired : IntentRecord :=
  { status := Status.PENDING, expiry := 10, lockedAmount := 100000, endpoint := "/api/data" }

/-- An expired intent in PROCESSING. -/
def intentProcessingExpired : IntentRecord :=
  { status := Status.PROCESSING, expiry := 10, lockedAmount := 100000, endpoint := "/api/data" }

/-- A receipt claiming `usedAmount` 101. -/
def receiptOver : ReceiptObj :=
  { receiptDemo with usedAmount := some (.num 101), tokensUsed := some (.num 40) }

/-- Oracle result for the over-claim scenario: 40 prompt tokens and no
completion tokens on gpt-4o, an independent cost of exactly 100 smallest
units with a tolerance of 1. -/
def apiResultGpt4o : ApiResult :=
  { usage := some { prompt_tokens := some 40, completion_tokens := some 0 },
    model := some "openai/gpt-4o" }

/-- An AI-endpoint intent with only 100 units locked. -/
def intentAiSmall : IntentRecord :=
  { status := Status.PROCESSING, expiry := 10000000, lockedAmount := 100, endpoint := "/ai/chat" }

/-- Does a response carry the spec's typed `InvalidTransition` error?
Modelled from the spec: the specification demands that a second `settle`
on the same intent be rejected with a typed `InvalidTransition` error;
the code has no such error value, so the nearest meaning is a response
whose error message is the string `InvalidTransition`. -/
def respMentionsInvalidTransition : Response → Bool
  | .ok _ => false
  | .badRequest m => decide (m = "InvalidTransition")
  | .paymentRequired m => decide (m = "InvalidTransition")
  | .serverError m => decide (m = "InvalidTransition")

/-- Run a sequence of `validateNonce` calls (nonce, millisecond time)
against a ledger. -/
def runNonceCalls (st : NonceState) : List (String × ℤ) → NonceState
  | [] => st
  | (m, t) :: rest => runNonceCalls (validateNonce st t m).2 rest

/- ## Theorems -/

set_option maxRecDepth 4000

/-- Claim C10: a receipt with no (or falsy) `tokensUsed`, or a check run
with no oracle usage object, makes `verifyAgainstOpenRouterUsage` return
`true` unconditionally: the usage comparison is skipped rather than
failing. -/
theorem c10_skip_usage_check (r : ReceiptObj) (u : Option Usage)
    (h : truthyField r.tokensUsed = false ∨ u = none) :
    verifyAgainstOpenRouterUsage r u = true := by
  unfold verifyAgainstOpenRouterUsage
  rcases h with h | h
  · cases u <;> simp [h]
  · simp [h]

/-- Witness for C10: a receipt whose `tokensUsed` is 0 (falsy) passes the
cross-check even though the oracle reports 10 tokens. -/
theorem c10_witness :
    truthyField ({ receiptDemo with tokensUsed := some (.num 0) } : ReceiptObj).tokensUsed = false ∧
    verifyAgainstOpenRouterUsage { receiptDemo with tokensUsed := some (.num 0) }
      (some { prompt_tokens := some 5, completion_tokens := some 5 }) = true :=
  ⟨by decide,
   c10_skip_usage_check { receiptDemo with tokensUsed := some (.num 0) }
     (some { prompt_tokens := some 5, completion_tokens := some 5 }) (Or.inl (by decide))⟩

/-- Counterexample to claim C1 as stated: a receipt claiming 101 against an
independently computed oracle cost of 100 is within the one percent
tolerance (difference 1, tolerance 1) and reconciliation succeeds, but
the amount it returns is the computed 100, not the provider's claimed
101. -/
theorem c1_counterexample :
    jsGt (jsAbs (jsSub (jsField receiptOver.usedAmount) (.num 100))) (.num 1) = false ∧
    verifyUsage apiResultGpt4o receiptOver = .ok 100 ∧
    jsField receiptOver.usedAmount = .num 101 ∧
    (100 : ℚ) ≠ 101 := by decide

/-- Claim C1 as amended: when the claimed `usedAmount` is within the one
percent tolerance of the independently computed oracle cost,
reconciliation succeeds and returns the independently computed cost
(`totalCostWei`), not the provider's claim; the scenario of a receipt
with `usedAmount` 7500 settling for exactly 7500 happens only on
endpoints outside the `/ai/` prefix, where `verifyUsageAmount` trusts
the claim without any oracle comparison. -/
theorem c1_reconciliation_returns_computed_cost :
    (∀ (a : ApiResult) (r : ReceiptObj) (u : Usage) (p : ModelPricing) (w tol : ℤ),
       a.usage = some u →
       getModelPricing a.model = some p →
       w = jsRound (qmul (qadd (qdiv (qmul (orZero u.prompt_tokens : ℚ) p.prompt_per_token) 1000000)
             (qdiv (qmul (orZero u.completion_tokens : ℚ) p.completion_per_token) 1000000)) 1000000) →
       tol = jsRound (qmul (w : ℚ) (mkRat 1 100)) →
       jsGt (jsAbs (jsSub (jsField r.usedAmount) (.num (w : ℚ)))) (.num (tol : ℚ)) = false →
       verifyUsage a r = .ok w) ∧
    (∀ (r : ReceiptObj) (a : ApiResult) (i : IntentRecord),
       jsStartsWith i.endpoint "/ai/" = false →
       r.usedAmount = some (.num 7500) →
       jsGt (.num 7500) (.num i.lockedAmount) = false →
       verifyUsageAmount r a i = .ok (.num 7500)) := by
  constructor
  · intro a r u p w tol hu hp hw htol hle
    unfold verifyUsage
    simp only [hu, hp]
    rw [← hw, ← htol] at *
    simp [hle]
  · intro r a i hep hu hle
    unfold verifyUsageAmount
    simp [hep, hu, jsField, hle]

/-- Witness for C1 (amended): the 101-claim receipt reconciles to the
computed 100 on gpt-4o, and the demo 7500 receipt is trusted as-is on
the non-`/ai/` demo endpoint. -/
theorem c1_witness :
    apiResultGpt4o.usage = some { prompt_tokens := some 40, completion_tokens := some 0 } ∧
    verifyUsage apiResultGpt4o receiptOver = .ok 100 ∧
    verifyUsageAmount receiptDemo apiResultDemo intentDemo = .ok (.num 7500) :=
  ⟨by decide,
   c1_reconciliation_returns_computed_cost.1 apiResultGpt4o receiptOver
     { prompt_tokens := some 40, completion_tokens := some 0 } ⟨mkRat 5 2, 10⟩ 100 1
     (by decide) (by decide) (by decide) (by decide) (by decide),
   c1_reconciliation_returns_computed_cost.2 receiptDemo apiResultDemo intentDemo
     (by decide) (by decide) (by decide)⟩

/-- Counterexample to claim C8 as stated: on an `/ai/` endpoint a receipt
whose claimed `usedAmount` 101 exceeds the intent's `lockedAmount` 100 is
not rejected at all — the oracle reconciliation runs first, accepts the
claim within tolerance, and the bound is then checked against the
reconciled amount 100, so settlement is authorised for 100. -/
theorem c8_counterexample :
    jsStartsWith intentAiSmall.endpoint "/ai/" = true ∧
    jsGt (jsField receiptOver.usedAmount) (.num intentAiSmall.lockedAmount) = true ∧
    verifyUsageAmount receiptOver apiResultGpt4o intentAiSmall = .ok (.num 100) := by decide

/-- Claim C8 as amended: the locked-amount bound is applied to the verified
amount after any reconciliation. On endpoints outside `/ai/` no oracle
reconciliation is attempted (the outcome is independent of the API
result) and a claimed `usedAmount` above `lockedAmount` is rejected with
`Claimed usage exceeds locked amount`; on `/ai/` endpoints the oracle
reconciliation runs first and the bound is checked on the reconciled
amount, not the claim. -/
theorem c8_bound_checked_after_reconciliation :
    (∀ (r : ReceiptObj) (a a2 : ApiResult) (i : IntentRecord),
       jsStartsWith i.endpoint "/ai/" = false →
       verifyUsageAmount r a i = verifyUsageAmount r a2 i) ∧
    (∀ (r : ReceiptObj) (a : ApiResult) (i : IntentRecord),
       jsStartsWith i.endpoint "/ai/" = false →
       jsGt (jsField r.usedAmount) (.num i.lockedAmount) = true →
       verifyUsageAmount r a i = .error "Claimed usage exceeds locked amount") ∧
    (∀ (r : ReceiptObj) (a : ApiResult) (i : IntentRecord) (w : ℤ),
       jsStartsWith i.endpoint "/ai/" = true →
       verifyUsage a r = .ok w →
       verifyUsageAmount r a i =
         if jsGt (.num (w : ℚ)) (.num i.lockedAmount) then
           .error "Claimed usage exceeds locked amount"
         else .ok (.num (w : ℚ))) := by
  refine ⟨?_, ?_, ?_⟩
  · intro r a a2 i hep
    unfold verifyUsageAmount
    simp [hep]
  · intro r a i hep hgt
    unfold verifyUsageAmount
    simp [hep, hgt]
  · intro r a i w hep hv
    unfold verifyUsageAmount
    simp [hep, hv, Except.map]

/-- Witness for C8 (amended): on the non-`/ai/` endpoint `/api/data` a
claimed 101 against 100 locked is rejected without reconciliation. -/
theorem c8_witness :
    jsStartsWith "/api/data" "/ai/" = false ∧
    verifyUsageAmount receiptOver apiResultGpt4o
      { status := Status.PROCESSING, expiry := 10000000, lockedAmount := 100,
        endpoint := "/api/data" } = .error "Claimed usage exceeds locked amount" :=
  ⟨by decide,
   c8_bound_checked_after_reconciliation.2.1 receiptOver apiResultGpt4o
     { status := Status.PROCESSING, expiry := 10000000, lockedAmount := 100,
       endpoint := "/api/data" } (by decide) (by decide)⟩

/-- Claim C4 (recording the code bug): a receipt claiming the negative
`usedAmount` -5 passes the whole paid-request flow — the settlement path
never runs `validateReceipt`'s positivity check and `verifyUsageAmount`
only checks the upper bound — so the intent settles with
`settledAmount = -5 < 0` and a reported refund of 100005, which exceeds
the 100000 that was locked. -/
theorem c4_negative_amount_settles :
    (gatewayPaidRequest envNeg stateDemo 1000 "I1").1 =
      .ok { intentId := "I1", settledAmount := .num (-5), settledTx := "0xtx",
            refundAmount := .num 100005 } ∧
    jsLt (.num (-5)) (.num 0) = true ∧
    intentDemo.lockedAmount = 100000 := by decide

/-- Counterexample to claim C6 as stated: an expired intent that is still
PENDING (non-terminal, expiry second 10 < now second 20) survives a run
of the expiry sweep untouched, and no refund is attempted for it. -/
theorem c6_counterexample :
    intentPendingExpired.status = Status.PENDING ∧
    (qdiv (20000 : ℚ) 1000 > intentPendingExpired.expiry) ∧
    checkTimeouts (fun _ => .ok "0xr") 20000 [("i1", intentPendingExpired)] =
      ([("i1", intentPendingExpired)], []) := by decide

/-- Claim C6 as amended: one run of the expiry sweep refunds and removes
only intents whose status is PROCESSING and whose expiry has passed —
expired PENDING or LOCKED intents are never refunded nor removed — and
the sweep stops right after the first intent it refunds (the source then
calls the undefined `recordRefundToAuditContract`, aborting the run), so
later expired intents wait for a later run. -/
theorem c6_sweep_only_processing (ro : String → Except String String) (nowMs : ℤ)
    (hro : ∀ id, ∃ tx, ro id = .ok tx) :
    (∀ l : List (String × IntentRecord),
       (∀ p ∈ l, ¬(p.2.status = Status.PROCESSING ∧ qdiv (nowMs : ℚ) 1000 > p.2.expiry)) →
       checkTimeouts ro nowMs l = (l, [])) ∧
    (∀ (l1 : List (String × IntentRecord)) (id : String) (it : IntentRecord)
       (l2 : List (String × IntentRecord)),
       (∀ p ∈ l1, ¬(p.2.status = Status.PROCESSING ∧ qdiv (nowMs : ℚ) 1000 > p.2.expiry)) →
       it.status = Status.PROCESSING → qdiv (nowMs : ℚ) 1000 > it.expiry →
       checkTimeouts ro nowMs (l1 ++ (id, it) :: l2) = (l1 ++ l2, [id])) := by
  constructor
  · intro l
    induction l with
    | nil => intro _; rfl
    | cons p rest ih =>
      intro hall
      obtain ⟨id, it⟩ := p
      have hp := hall (id, it) (List.mem_cons_self _ _)
      have hrest := ih (fun q hq => hall q (List.mem_cons_of_mem _ hq))
      simp only [checkTimeouts, if_neg hp, hrest]
  · intro l1 id it l2 hclean hst hexp
    induction l1 with
    | nil =>
      obtain ⟨tx, htx⟩ := hro id
      simp only [List.nil_append, checkTimeouts, if_pos (And.intro hst hexp), htx]
    | cons p rest ih =>
      have hp := hclean p (List.mem_cons_self _ _)
      have hrest := ih (fun q hq => hclean q (List.mem_cons_of_mem _ hq))
      obtain ⟨pid, pit⟩ := p
      rw [List.cons_append]
      simp only [checkTimeouts, if_neg hp]
      rw [hrest]
      rfl

/-- Witness for C6 (amended): with three registry entries — an expired
PENDING intent, then two expired PROCESSING intents — one sweep run
refunds and removes only the first PROCESSING one. -/
theorem c6_witness :
    intentProcessingExpired.status = Status.PROCESSING ∧
    checkTimeouts (fun _ => .ok "0xr") 20000
      [("i1", intentPendingExpired), ("i2", intentProcessingExpired),
       ("i3", intentProcessingExpired)] =
      ([("i1", intentPendingExpired), ("i3", intentProcessingExpired)], ["i2"]) :=
  ⟨by decide,
   (c6_sweep_only_processing (fun _ => .ok "0xr") 20000 (fun _ => ⟨"0xr", rfl⟩)).2
     [("i1", intentPendingExpired)] "i2" intentProcessingExpired
     [("i3", intentProcessingExpired)] (by decide) (by decide) (by decide)⟩

/-- Counterexample to claim C2 as stated: a receipt whose fields and
signature are all in order but whose timestamp lies 301 seconds in the
future is rejected for the timestamp (not for a consumed nonce), yet its
nonce `n1` has been recorded in the ledger, and a later call presenting
`n1` is rejected as a replay. -/
theorem c2_counterexample :
    validateReceiptE cryptoAccept nonceStateEmpty 10000000 none (.obj receiptFuture) =
      (.error "Receipt timestamp too far in future", nonceStateN1) ∧
    validateReceipt cryptoAccept nonceStateEmpty 10000000 none (.obj receiptFuture) =
      (false, nonceStateN1) ∧
    ("n1" ∈ nonceStateN1.processedNonces) ∧
    (validateNonce nonceStateN1 10000001 "n1").1 = false := by decide

/-- Claim C2 as amended: only the rejections that occur before the nonce
check — a non-object receipt, a missing required field, a missing or
invalid signature (including an unknown provider) — leave the nonce
ledger unchanged; rejections for a stale or future timestamp or an
invalid amount happen after the nonce has been recorded, so those do
consume the nonce and a later receipt with the same nonce is rejected as
a replay. -/
theorem c2_prenonce_rejections_leave_ledger (env : CryptoEnv) (st : NonceState)
    (nowMs : ℤ) (pk : Option String) :
    validateReceipt env st nowMs pk .null = (false, st) ∧
    ∀ rc : ReceiptObj,
      (firstMissingField rc ≠ none ∨ truthyStr rc.signature = false ∨
       validateSignature env rc pk ≠ .ok true) →
      validateReceipt env st nowMs pk (.obj rc) = (false, st) := by
  refine ⟨rfl, ?_⟩
  intro rc h
  unfold validateReceipt validateReceiptE
  cases hf : firstMissingField rc with
  | some f => simp [hf]
  | none =>
    cases hs : truthyStr rc.signature with
    | false => simp [hf, hs]
    | true =>
      cases hv : validateSignature env rc pk with
      | error e => simp [hf, hs, hv]
      | ok b =>
        cases b with
        | false => simp [hf, hs, hv]
        | true =>
          rcases h with h | h | h
          · exact absurd hf h
          · rw [hs] at h; exact absurd h (by simp)
          · rw [hv] at h; exact absurd rfl h

/-- Witness for C2 (amended): a receipt with no signature at all is
rejected with the ledger untouched. -/
theorem c2_witness :
    truthyStr ({ receiptDemo with signature := none } : ReceiptObj).signature = false ∧
    validateReceipt cryptoAccept nonceStateEmpty 10000000 none
      (.obj { receiptDemo with signature := none }) = (false, nonceStateEmpty) :=
  ⟨by decide,
   (c2_prenonce_rejections_leave_ledger cryptoAccept nonceStateEmpty 10000000 none).2
     { receiptDemo with signature := none } (Or.inr (Or.inl (by decide)))⟩

/-- Helper for C3: a `validateNonce` call on any nonce, at a time still
inside the retention window measured from `t1`, keeps a nonce `n` that is
already recorded with store timestamps at least `t1` both recorded and
time-stamped at least `t1`. -/
theorem validateNonce_mem_preserved (st : NonceState) (n m : String) (t1 t : ℤ)
    (hmem : n ∈ st.processedNonces)
    (hstore : ∀ p ∈ st.nonceStore, p.1 = n → t1 ≤ p.2)
    (ht : t ≤ t1 + maxNonceAge) :
    n ∈ (validateNonce st t m).2.processedNonces ∧
    ∀ p ∈ (validateNonce st t m).2.nonceStore, p.1 = n → t1 ≤ p.2 := by
  unfold validateNonce
  by_cases hm : m ∈ st.processedNonces
  · simp only [if_pos hm]
    exact ⟨hmem, hstore⟩
  · simp only [if_neg hm]
    have hmn : m ≠ n := fun hc => hm (hc ▸ hmem)
    unfold cleanupOldNonces
    constructor
    · rw [List.mem_filter]
      refine ⟨List.mem_cons_of_mem _ hmem, ?_⟩
      rw [Bool.not_eq_true']
      by_contra hx
      rw [Bool.not_eq_false] at hx
      obtain ⟨p, hp, hpred⟩ := List.any_eq_true.mp hx
      have hp1 : p.1 = n := by
        have := (Bool.and_eq_true _ _).mp hpred
        exact of_decide_eq_true this.1
      have hp2 : p.2 < t - maxNonceAge := by
        have := (Bool.and_eq_true _ _).mp hpred
        exact of_decide_eq_true this.2
      rcases List.mem_cons.mp hp with hpc | hpf
      · exact hmn (by rw [hpc] at hp1; exact hp1)
      · have hpmem : p ∈ st.nonceStore := (List.mem_filter.mp hpf).1
        have := hstore p hpmem hp1
        omega
    · intro p hp hpn
      have hp' := (List.mem_filter.mp hp).1
      rcases List.mem_cons.mp hp' with hpc | hpf
      · exact absurd hpn (by rw [hpc]; exact fun hc => hmn hc)
      · exact hstore p (List.mem_filter.mp hpf).1 hpn

/-- Helper for C3: the recorded-nonce invariant survives any sequence of
`validateNonce` calls whose times stay inside the retention window
measured from `t1`. -/
theorem runNonceCalls_inv (n : String) (t1 : ℤ) :
    ∀ (calls : List (String × ℤ)) (st : NonceState),
      n ∈ st.processedNonces →
      (∀ p ∈ st.nonceStore, p.1 = n → t1 ≤ p.2) →
      (∀ c ∈ calls, c.2 ≤ t1 + maxNonceAge) →
      n ∈ (runNonceCalls st calls).processedNonces := by
  intro calls
  induction calls with
  | nil => intro st h _ _; exact h
  | cons c rest ih =>
    intro st hmem hstore hc
    obtain ⟨m, t⟩ := c
    have step := validateNonce_mem_preserved st n m t1 t hmem hstore
      (hc (m, t) (List.mem_cons_self _ _))
    exact ih (validateNonce st t m).2 step.1 step.2
      (fun d hd => hc d (List.mem_cons_of_mem _ hd))

/-- Helper for C3: a `validateNonce` call on an already recorded nonce
fails. -/
theorem validateNonce_used (st : NonceState) (n : String) (t : ℤ)
    (h : n ∈ st.processedNonces) : validateNonce st t n = (false, st) := by
  unfold validateNonce
  simp [h]

/-- Helper for C3: the first `validateNonce` call on a fresh nonce succeeds
and records the nonce with its timestamp. -/
theorem validateNonce_fresh (st : NonceState) (n : String) (t1 : ℤ)
    (h : n ∉ st.processedNonces) :
    (validateNonce st t1 n).1 = true ∧
    n ∈ (validateNonce st t1 n).2.processedNonces ∧
    ∀ p ∈ (validateNonce st t1 n).2.nonceStore, p.1 = n → t1 ≤ p.2 := by
  unfold validateNonce
  simp only [if_neg h]
  refine ⟨by trivial, ?_, ?_⟩
  · unfold cleanupOldNonces
    rw [List.mem_filter]
    refine ⟨List.mem_cons_self _ _, ?_⟩
    rw [Bool.not_eq_true']
    by_contra hx
    rw [Bool.not_eq_false] at hx
    obtain ⟨p, hp, hpred⟩ := List.any_eq_true.mp hx
    have hp1 : p.1 = n := of_decide_eq_true ((Bool.and_eq_true _ _).mp hpred).1
    have hp2 : p.2 < t1 - maxNonceAge := of_decide_eq_true ((Bool.and_eq_true _ _).mp hpred).2
    rcases List.mem_cons.mp hp with hpc | hpf
    · rw [hpc] at hp2
      unfold maxNonceAge at hp2
      omega
    · have hfilt := (List.mem_filter.mp hpf).2
      rw [Bool.not_eq_true', decide_eq_false_iff_not] at hfilt
      exact hfilt hp1
  · intro p hp hpn
    have hp' := (List.mem_filter.mp hp).1
    rcases List.mem_cons.mp hp' with hpc | hpf
    · rw [hpc]
    · have hfilt := (List.mem_filter.mp hpf).2
      rw [Bool.not_eq_true', decide_eq_false_iff_not] at hfilt
      exact absurd hpn hfilt

/-- Claim C3: for every nonce `n` not yet in the ledger, the first
`validateNonce` call for `n` succeeds, and every later call for the same
`n` fails as already used, no matter which other nonces were validated in
between, as long as all the calls stay within the 24-hour retention
window of the first call: two calls with the same nonce yield exactly one
success. -/
theorem c3_nonce_single_success (st : NonceState) (n : String) (t1 t2 : ℤ)
    (calls : List (String × ℤ)) (h0 : n ∉ st.processedNonces)
    (hcalls : ∀ c ∈ calls, c.2 ≤ t1 + maxNonceAge) (_ht2 : t2 ≤ t1 + maxNonceAge) :
    (validateNonce st t1 n).1 = true ∧
    (validateNonce (runNonceCalls (validateNonce st t1 n).2 calls) t2 n).1 = false := by
  obtain ⟨h1, h2, h3⟩ := validateNonce_fresh st n t1 h0
  have hmem := runNonceCalls_inv n t1 calls _ h2 h3 hcalls
  exact ⟨h1, by rw [validateNonce_used _ _ _ hmem]⟩

/-- Witness for C3: nonce `a` is accepted at time 0, nonce `b` is validated
in between at time 1000, and a second presentation of `a` at the end of
the retention window is rejected. -/
theorem c3_witness :
    ("a" ∉ nonceStateEmpty.processedNonces) ∧
    (validateNonce nonceStateEmpty 0 "a").1 = true ∧
    (validateNonce (runNonceCalls (validateNonce nonceStateEmpty 0 "a").2 [("b", 1000)])
      86400000 "a").1 = false :=
  ⟨by decide,
   (c3_nonce_single_success nonceStateEmpty "a" 0 86400000 [("b", 1000)]
     (by decide) (by decide) (by decide)).1,
   (c3_nonce_single_success nonceStateEmpty "a" 0 86400000 [("b", 1000)]
     (by decide) (by decide) (by decide)).2⟩

/-- Helper for C5: looking up a key right after deleting it finds nothing. -/
theorem mapGet_mapDelete (m : List (String × IntentRecord)) (k : String) :
    mapGet (mapDelete m k) k = none := by
  unfold mapGet mapDelete
  have hfind : (m.filter (fun p => !(decide (p.1 = k)))).find? (fun p => decide (p.1 = k)) = none := by
    rw [List.find?_eq_none]
    intro x hx
    have hxf := (List.mem_filter.mp hx).2
    rw [Bool.not_eq_true', decide_eq_false_iff_not] at hxf
    simp [hxf]
  rw [hfind]
  rfl

/-- Helper for C5: a paid request that answers with a settlement has deleted
the intent from the registry. -/
theorem gatewayPaidRequest_ok_deletes (env : GatewayEnv) (st : GatewayState) (nowMs : ℤ)
    (intentId : String) (s : SettlementRecord) (st2 : GatewayState) (calls : List NexusCall)
    (h : gatewayPaidRequest env st nowMs intentId = (.ok s, st2, calls)) :
    mapGet st2.activeIntents intentId = none := by
  unfold gatewayPaidRequest at h
  dsimp only at h
  split at h
  · exact absurd h (by simp)
  · split at h
    · exact absurd h (by simp)
    · split at h
      · exact absurd h (by simp)
      · split at h
        · exact absurd h (by simp)
        · split at h
          · exact absurd h (by simp)
          · split at h
            · exact absurd h (by simp)
            · split at h
              · exact absurd h (by simp)
              · simp only [Prod.mk.injEq] at h
                rw [← h.2.1]
                exact mapGet_mapDelete _ _

/-- Claim C5 as amended: after a settle call has succeeded for an intent,
the intent record has been deleted from the registry, so a second settle
call with the same intentId fails with HTTP 400 `Invalid intent ID` —
there is no typed `InvalidTransition` error in the code — and it leaves
the gateway state unchanged and performs no escrow call. -/
theorem c5_second_settle_invalid_intent (env : GatewayEnv) (st : GatewayState)
    (nowMs : ℤ) (intentId : String) (s : SettlementRecord) (st2 : GatewayState)
    (calls : List NexusCall) (now2 : ℤ)
    (h : gatewayPaidRequest env st nowMs intentId = (.ok s, st2, calls)) :
    gatewayPaidRequest env st2 now2 intentId = (.badRequest "Invalid intent ID", st2, []) := by
  have hget := gatewayPaidRequest_ok_deletes env st nowMs intentId s st2 calls h
  unfold gatewayPaidRequest
  rw [hget]

/-- Counterexample to claim C5 as stated: after the demo intent settles, a
second settle call for the same intentId does fail, but with the message
`Invalid intent ID`, not with the typed error `InvalidTransition` the
claim demands (no response of the gateway ever carries that error). -/
theorem c5_counterexample :
    (gatewayPaidRequest envDemo stateDemo 1000 "I1").1 =
      .ok { intentId := "I1", settledAmount := .num 7500, settledTx := "0xtx",
            refundAmount := .num 92500 } ∧
    (gatewayPaidRequest envDemo (gatewayPaidRequest envDemo stateDemo 1000 "I1").2.1
        2000 "I1").1 = .badRequest "Invalid intent ID" ∧
    respMentionsInvalidTransition
      (gatewayPaidRequest envDemo (gatewayPaidRequest envDemo stateDemo 1000 "I1").2.1
        2000 "I1").1 = false := by decide

/-- Witness for C5 (amended): the demo intent settles for 7500, and the
repeated call answers 400 `Invalid intent ID` with the state unchanged. -/
theorem c5_witness :
    gatewayPaidRequest envDemo stateDemo 1000 "I1" =
      (.ok { intentId := "I1", settledAmount := .num 7500, settledTx := "0xtx",
             refundAmount := .num 92500 },
       { activeIntents := [], processedReceipts := ["n1"] },
       [.settle "I1" (.num 7500)]) ∧
    gatewayPaidRequest envDemo { activeIntents := [], processedReceipts := ["n1"] } 2000 "I1" =
      (.badRequest "Invalid intent ID",
       { activeIntents := [], processedReceipts := ["n1"] }, []) :=
  ⟨by decide,
   c5_second_settle_invalid_intent envDemo stateDemo 1000 "I1"
     { intentId := "I1", settledAmount := .num 7500, settledTx := "0xtx",
       refundAmount := .num 92500 }
     { activeIntents := [], processedReceipts := ["n1"] }
     [.settle "I1" (.num 7500)] 2000 (by decide)⟩

/-- Helper for C7: when the receipt fails signature validation, presents an
already consumed nonce, or fails the usage verification,
`handleSettlement` throws without ever issuing a settle call. -/
theorem handleSettlement_fail (env : GatewayEnv) (pr : List String) (intentId : String)
    (result : ProviderResult) (intentRecord : IntentRecord)
    (hfail : validateSignature env.crypto result.receipt none ≠ .ok true ∨
             (result.receipt.nonce.getD "undefined") ∈ pr ∨
             ∃ e, verifyUsageAmount result.receipt result.apiResult intentRecord = .error e) :
    ∃ e pr2, handleSettlement env pr intentId result intentRecord = (.error e, pr2, []) := by
  rcases hv : validateSignature env.crypto result.receipt none with e | b
  · exact ⟨e, pr, by simp [handleSettlement, hv]⟩
  · cases b with
    | false => exact ⟨"Invalid receipt signature", pr, by simp [handleSettlement, hv]⟩
    | true =>
      by_cases hmem : (result.receipt.nonce.getD "undefined") ∈ pr
      · exact ⟨"Duplicate receipt nonce", pr, by simp [handleSettlement, hv, hmem]⟩
      · rcases hfail with h | h | h
        · exact absurd hv h
        · exact absurd h hmem
        · obtain ⟨e, he⟩ := h
          exact ⟨e, (result.receipt.nonce.getD "undefined") :: pr,
            by simp [handleSettlement, hv, hmem, he]⟩

/-- Claim C7: for every intent that passes the evidence guards (present,
unexpired, LOCKED with enough funds) and so is marked PROCESSING, if the
provider receipt then fails validation — bad or missing signature, a
replayed nonce — or fails usage reconciliation, the gateway answers 500,
attempts an escrow refund for that intent, and never issues a settle call
for it: the call list is exactly the one refund attempt. -/
theorem c7_failed_receipt_refund_no_settle (env : GatewayEnv) (st : GatewayState)
    (nowMs : ℤ) (intentId : String) (r : IntentRecord) (ist : NexusStatus)
    (result : ProviderResult)
    (hrec : mapGet st.activeIntents intentId = some r)
    (hexp : ¬(qdiv (nowMs : ℚ) 1000 > r.expiry))
    (hns : env.nexusStatus intentId = .ok ist)
    (hlock : ist.status = Status.LOCKED)
    (hamt : ¬(ist.amount < r.lockedAmount))
    (hpr : env.providerResult intentId = .ok result)
    (hfail : validateSignature env.crypto result.receipt none ≠ .ok true ∨
             (result.receipt.nonce.getD "undefined") ∈ st.processedReceipts ∨
             ∃ e, verifyUsageAmount result.receipt result.apiResult
                    { r with status := Status.PROCESSING } = .error e) :
    (gatewayPaidRequest env st nowMs intentId).1 = .serverError "Service error" ∧
    (gatewayPaidRequest env st nowMs intentId).2.2 = [.refund intentId] := by
  obtain ⟨e, pr2, hh⟩ := handleSettlement_fail env st.processedReceipts intentId result
    { r with status := Status.PROCESSING } hfail
  unfold gatewayPaidRequest
  simp only [hrec, if_neg hexp, hns, hlock, ne_eq, not_true_eq_false, if_neg hamt, hpr, hh]
  simp

/-- Witness for C7 (Scenario C): a receipt reusing the consumed nonce `n1`
triggers a refund attempt for the intent and no settle call. -/
theorem c7_witness :
    ("n1" ∈ stateReplay.processedReceipts) ∧
    (gatewayPaidRequest envDemo stateReplay 1000 "I1").1 = .serverError "Service error" ∧
    (gatewayPaidRequest envDemo stateReplay 1000 "I1").2.2 = [.refund "I1"] :=
  ⟨by decide,
   (c7_failed_receipt_refund_no_settle envDemo stateReplay 1000 "I1" intentDemo
     { status := Status.LOCKED, amount := 100000 }
     { receipt := receiptDemo, apiResult := apiResultDemo }
     (by decide) (by decide) rfl rfl (by decide) rfl
     (Or.inr (Or.inl (by decide)))).1,
   (c7_failed_receipt_refund_no_settle envDemo stateReplay 1000 "I1" intentDemo
     { status := Status.LOCKED, amount := 100000 }
     { receipt := receiptDemo, apiResult := apiResultDemo }
     (by decide) (by decide) rfl rfl (by decide) rfl
     (Or.inr (Or.inl (by decide)))).2⟩

/-- Claim C9: `validateReceipt` is a total boolean function — the whole
source body runs inside a try/catch, embedded as the `Except` wrapper —
and it returns `true` exactly when every check passes: for every input,
a null or non-object receipt, a missing required field, a missing or
unverifiable signature, an unknown provider, a replayed nonce, an
out-of-window timestamp, a non-positive or non-numeric amount, or a bad
token count is caught and yields `false`. -/
theorem c9_validateReceipt_total (env : CryptoEnv) (st : NonceState) (nowMs : ℤ)
    (pk : Option String) (r : RVal) :
    (validateReceipt env st nowMs pk r).1 = receiptChecks env st nowMs pk r := by
  cases r with
  | null => rfl
  | obj rc =>
    unfold validateReceipt validateReceiptE receiptChecks
    cases hf : firstMissingField rc with
    | some f => simp [hf]
    | none =>
      have hnonce : ∃ nn, rc.nonce = some nn := by
        cases hno : rc.nonce with
        | some nn => exact ⟨nn, rfl⟩
        | none =>
          exfalso
          unfold firstMissingField at hf
          split_ifs at hf
          simp_all
      obtain ⟨nn, hnn⟩ := hnonce
      cases hs : truthyStr rc.signature with
      | false => simp [hf, hs]
      | true =>
        cases hv : validateSignature env rc pk with
        | error e => simp [hf, hs, hv]
        | ok b =>
          cases b with
          | false => simp [hf, hs, hv]
          | true =>
            by_cases hmem : nn ∈ st.processedNonces
            · simp [hf, hs, hv, hnn, validateNonce_used st nn nowMs hmem, hmem]
            · rcases hvn : validateNonce st nowMs nn with ⟨b, st1⟩
              have hb : b = true := by
                have hfr := (validateNonce_fresh st nn nowMs hmem).1
                rw [hvn] at hfr
                exact hfr
              subst hb
              simp only [hf, hs, hv, hnn, hvn, Option.isNone_none, Option.getD_some]
              cases h1 : jsGt (jsField rc.timestamp)
                  (.num ((Int.fdiv nowMs 1000 + 300 : ℤ) : ℚ)) with
              | true => simp [hmem]
              | false =>
                cases h2 : jsLt (jsField rc.timestamp)
                    (.num ((Int.fdiv nowMs 1000 - 3600 : ℤ) : ℚ)) with
                | true => simp [hmem]
                | false =>
                  cases hpa : parseIntJ (jsField rc.usedAmount) with
                  | nan => simp [hmem]
                  | num q =>
                    by_cases hq : q ≤ 0
                    · simp [hq, not_lt.mpr hq, hmem]
                    · have hq' : 0 < q := lt_of_not_ge hq
                      cases ht : truthyField rc.tokensUsed with
                      | false => simp [hq, hq', ht, hmem]
                      | true =>
                        cases hpt : parseIntJ (jsField rc.tokensUsed) with
                        | nan => simp [hq, hq', hmem]
                        | num t =>
                          by_cases htn : t < 0
                          · simp [hq, hq', htn, not_le.mpr htn, hmem]
                          · simp [hq, hq', htn, le_of_not_lt htn, hmem]

end FluxPay
